import Mathlib

/-!
Shallow embedding of the predictive sleep pipeline of the coddle app:
the age-baseline table (`src/coddle-expo/src/constants/baselines.ts`),
the pattern learner (`src/coddle-expo/src/utils/learner.ts`),
the schedule simulator (`src/coddle-expo/src/utils/schedule.ts`) and
the coach tip engine (`src/coddle-expo/src/utils/coach.ts`, provided as
`src/unnamed/part_012`).

Modelling conventions:
* Timestamps (ISO strings in the source) are minutes since a fixed local
  epoch, as integers; all sessions in the source are handled at minute
  granularity (`differenceInMinutes`).  `date-fns` helpers become integer
  arithmetic: `addMinutes` is addition (with the JavaScript `toInteger`
  truncation of a fractional amount), `isBefore` is `<`, `startOfDay`
  rounds down to a multiple of 1440, and the hour of a timestamp is
  `t % 1440 / 60`.
* JavaScript numbers are modelled as exact rationals `ℚ`.
  `Math.round` is `⌊x + 1/2⌋` (round half toward positive infinity),
  `Math.min` / `Math.max` are `min` / `max`.
* `uuidv4()` draws a fresh identifier on every call; the simulator is
  parameterised by an identifier supply `ids : ℕ → String` consumed in
  call order, which makes the dependence of the output on the generated
  identifiers explicit.
* Formatted message / rationale strings carry their computed numbers; we
  model each message by its numeric payload (exact, before the source's
  display rounding) and each rationale by a structured value holding the
  same varying content as the source string.
-/

namespace Coddle

/-- Timestamps are minutes since a fixed local epoch, as plain integers
(a `Date` / ISO string in the source).

Local clock hour of a timestamp, as in `format(date, 'H')`. -/
def hourOf (t : ℤ) : ℤ := t % 1440 / 60

/-- Start of the civil day containing `t`, as in `startOfDay`. -/
def startOfDayM (t : ℤ) : ℤ := t - t % 1440

/-- JavaScript `toInteger` truncation toward zero, used by `date-fns`
`addMinutes` on a fractional amount. -/
def jsTrunc (q : ℚ) : ℤ := if q < 0 then ⌈q⌉ else ⌊q⌋

/-- JavaScript `Math.round`: round half toward positive infinity. -/
def jsRound (q : ℚ) : ℚ := ((⌊q + 1/2⌋ : ℤ) : ℚ)

/-- A sleep session record (`SleepSession`); fields not read by the core
(quality, note, provenance, audit timestamp) are omitted.  `endT` is
`none` while the session is still open. -/
structure SleepSession where
  id : String
  start : ℤ
  endT : Option ℤ
  deleted : Bool
deriving DecidableEq, Repr

/-- Duration in minutes of a session (source: `differenceInMinutes(end,
start)` with the non-null assertion `endISO!`; sessions reaching this
point always have an end). -/
def sessionDur (s : SleepSession) : ℤ := s.endT.getD 0 - s.start

/-- The learner state (`LearnerState`).  `lastUpdatedISO` is a minute
timestamp. -/
structure LearnerState where
  version : ℤ
  ewmaNapLengthMin : ℚ
  ewmaWakeWindowMin : ℚ
  lastUpdatedISO : ℤ
  confidence : ℚ
deriving DecidableEq, Repr

/-- A calendar date, for `calculateAgeInMonths`, which works on the
year/month/day components of `Date`s. -/
structure YMD where
  year : ℤ
  month : ℤ
  day : ℤ
deriving DecidableEq, Repr

/-- A baby profile (`BabyProfile`); only the birth date is read by the
core. -/
structure BabyProfile where
  id : String
  name : String
  birthDate : YMD
deriving DecidableEq, Repr

/-- One row of the age-baseline table (`AgeBaseline`). -/
structure AgeBaseline where
  minAgeMonths : ℚ
  maxAgeMonths : ℚ
  wakeWindowMin : ℚ
  wakeWindowTypical : ℚ
  wakeWindowMax : ℚ
  napMin : ℚ
  napTypical : ℚ
  napMax : ℚ
  totalDaySleepMin : ℚ
  totalDaySleepMax : ℚ
  napsPerDay : ℚ
  description : String
deriving DecidableEq, Repr

/-- The static baseline table `AGE_BASELINES`. -/
def AGE_BASELINES : List AgeBaseline :=
  [ { minAgeMonths := 0, maxAgeMonths := 3,
      wakeWindowMin := 30, wakeWindowTypical := 60, wakeWindowMax := 90,
      napMin := 30, napTypical := 45, napMax := 120,
      totalDaySleepMin := 240, totalDaySleepMax := 480, napsPerDay := 5,
      description := "Newborn (0-3 months)" },
    { minAgeMonths := 4, maxAgeMonths := 6,
      wakeWindowMin := 75, wakeWindowTypical := 105, wakeWindowMax := 150,
      napMin := 45, napTypical := 60, napMax := 120,
      totalDaySleepMin := 180, totalDaySleepMax := 240, napsPerDay := 4,
      description := "Infant (4-6 months)" },
    { minAgeMonths := 7, maxAgeMonths := 12,
      wakeWindowMin := 120, wakeWindowTypical := 150, wakeWindowMax := 210,
      napMin := 45, napTypical := 75, napMax := 120,
      totalDaySleepMin := 120, totalDaySleepMax := 180, napsPerDay := 3,
      description := "Baby (7-12 months)" },
    { minAgeMonths := 13, maxAgeMonths := 18,
      wakeWindowMin := 180, wakeWindowTypical := 210, wakeWindowMax := 270,
      napMin := 60, napTypical := 90, napMax := 150,
      totalDaySleepMin := 90, totalDaySleepMax := 150, napsPerDay := 2,
      description := "Toddler (13-18 months)" },
    { minAgeMonths := 19, maxAgeMonths := 36,
      wakeWindowMin := 240, wakeWindowTypical := 300, wakeWindowMax := 360,
      napMin := 60, napTypical := 120, napMax := 180,
      totalDaySleepMin := 60, totalDaySleepMax := 150, napsPerDay := 1,
      description := "Toddler (19-36 months)" } ]

/-- The last (oldest) bracket, `AGE_BASELINES[AGE_BASELINES.length - 1]`. -/
def lastBaseline : AgeBaseline := AGE_BASELINES.getLast (by decide)

/-- Default learner state `DEFAULT_LEARNER_STATE`.  Its `lastUpdatedISO`
is the module-load time in the source, modelled as the epoch 0. -/
def DEFAULT_LEARNER_STATE : LearnerState :=
  { version := 1, ewmaNapLengthMin := 60, ewmaWakeWindowMin := 90,
    lastUpdatedISO := 0, confidence := 1/2 }

/-- `COACH_RULES.SHORT_NAP_THRESHOLD` (minutes). -/
def SHORT_NAP_THRESHOLD : ℤ := 30

/-- `COACH_RULES.SHORT_NAP_STREAK`. -/
def SHORT_NAP_STREAK : ℕ := 3

/-- `COACH_RULES.LONG_WAKE_THRESHOLD_RATIO` (120% of the bracket maximum). -/
def longWakeFactor : ℚ := 6/5

/-- `COACH_RULES.BEDTIME_VARIANCE_THRESHOLD` (minutes). -/
def BEDTIME_VARIANCE_THRESHOLD : ℚ := 30

/-- `COACH_RULES.MIN_SESSIONS_FOR_CONFIDENCE`. -/
def MIN_SESSIONS_FOR_CONFIDENCE : ℕ := 5

/-- `COACH_RULES.HIGH_CONFIDENCE_THRESHOLD`. -/
def HIGH_CONFIDENCE_THRESHOLD : ℚ := 3/4

/-- `getBaselineForAge`: first bracket whose `[minAgeMonths,
maxAgeMonths]` range admits the age, else the last bracket. -/
def getBaselineForAge (ageMonths : ℚ) : AgeBaseline :=
  (AGE_BASELINES.find? fun b =>
      decide (b.minAgeMonths ≤ ageMonths) && decide (ageMonths ≤ b.maxAgeMonths)).getD
    lastBaseline

/-- `calculateAgeInMonths(birthDateISO)`: calendar difference in whole
months between the birth date and the current date (the source reads the
ambient clock `new Date()`; the current date is passed explicitly here),
floored at 0. -/
def calculateAgeInMonths (birth nowD : YMD) : ℤ :=
  let years := nowD.year - birth.year
  let months := nowD.month - birth.month
  let days := nowD.day - birth.day
  let totalMonths := years * 12 + months
  let totalMonths := if days < 0 then totalMonths - 1 else totalMonths
  max 0 totalMonths

/-! ### Pattern learner (`learner.ts`) -/

/-- EWMA smoothing factor `ALPHA`. -/
def ALPHA : ℚ := 3/10

/-- The session set used by the learner: non-deleted sessions with a
recorded end, sorted ascending by start (the source sorts ISO strings
with `localeCompare`, which on ISO timestamps is chronological order;
JavaScript `sort` is stable). -/
def validSessionsOf (sessions : List SleepSession) : List SleepSession :=
  (sessions.filter fun s => !s.deleted && s.endT.isSome).insertionSort
    fun a b => a.start < b.start

/-- Accumulator threaded through the learner's `forEach` walk. -/
structure WalkAcc where
  ewmaNap : ℚ
  ewmaWake : ℚ
  count : ℕ
  seededNap : Bool
  seededWake : Bool
deriving DecidableEq, Repr

/-- One iteration of the learner's walk over the sorted valid sessions:
nap classification / EWMA fold, then the wake-window fold against the
previous session (`prev` is `none` exactly at index 0). -/
def learnerStep (initial : Bool) (prev : Option SleepSession) (acc : WalkAcc)
    (s : SleepSession) : WalkAcc :=
  let duration := sessionDur s
  let acc :=
    if duration < 240 then
      let clampedDuration := max 10 (min duration 180)
      if initial && !acc.seededNap then
        { acc with ewmaNap := (clampedDuration : ℚ), seededNap := true,
                   count := acc.count + 1 }
      else
        { acc with
            ewmaNap := ALPHA * (clampedDuration : ℚ) + (1 - ALPHA) * acc.ewmaNap,
            count := acc.count + 1 }
    else acc
  match prev with
  | none => acc
  | some prevSession =>
      let wakeWindow := s.start - prevSession.endT.getD 0
      if 0 < wakeWindow ∧ wakeWindow < 720 then
        let clampedWake := max 30 (min wakeWindow 400)
        if initial && !acc.seededWake then
          { acc with ewmaWake := (clampedWake : ℚ), seededWake := true,
                     count := acc.count + 1 }
        else
          { acc with
              ewmaWake := ALPHA * (clampedWake : ℚ) + (1 - ALPHA) * acc.ewmaWake,
              count := acc.count + 1 }
      else acc

/-- The learner's walk over the sorted valid sessions. -/
def learnerWalk (initial : Bool) :
    Option SleepSession → WalkAcc → List SleepSession → WalkAcc
  | _, acc, [] => acc
  | prev, acc, s :: rest =>
      learnerWalk initial (some s) (learnerStep initial prev acc s) rest

/-- `updateLearnerState`.  The first argument models the JavaScript
calling convention: `none` is an omitted / `undefined` argument (replaced
by `DEFAULT_LEARNER_STATE` through the parameter default), `some none` is
an explicit `null`, `some (some st)` an actual state.  `now` is the
ambient clock, written into `lastUpdatedISO`. -/
def updateLearnerState (currentStateArg : Option (Option LearnerState))
    (sessions : List SleepSession) (ageMonths : ℚ) (now : ℤ) :
    LearnerState :=
  let currentState : Option LearnerState :=
    match currentStateArg with
    | none => some DEFAULT_LEARNER_STATE
    | some x => x
  let state := currentState.getD DEFAULT_LEARNER_STATE
  let validSessions := validSessionsOf sessions
  if validSessions = [] then state
  else
    let baseline := getBaselineForAge ageMonths
    let initial := currentState.isNone
    let acc := learnerWalk initial none
      { ewmaNap := (baseline.napMin + baseline.napMax) / 2,
        ewmaWake := (baseline.wakeWindowMin + baseline.wakeWindowMax) / 2,
        count := 0, seededNap := false, seededWake := false } validSessions
    let confidence := min (3/10 + (acc.count : ℚ) * (5/100)) 1
    { version := state.version,
      ewmaNapLengthMin := jsRound acc.ewmaNap,
      ewmaWakeWindowMin := jsRound acc.ewmaWake,
      lastUpdatedISO := now,
      confidence := confidence }

/-! ### Coach tip engine (`src/unnamed/part_012`) -/

/-- Tip severity tag (`type` in `CoachTip`). -/
inductive TipType
  | warning
  | info
  | success
deriving DecidableEq, Repr

/-- A coach tip.  The message string carries fixed text plus computed
numbers; `nums` is the numeric payload in source order (exact, before the
source's display rounding). -/
structure CoachTip where
  id : String
  ttype : TipType
  nums : List ℚ
  relatedSessionIds : List String
deriving DecidableEq, Repr

/-- Session classified as a nap: duration under 240 minutes. -/
def isNapSession (s : SleepSession) : Bool := sessionDur s < 240

/-- The tip engine's session set: non-deleted, ended, sorted descending
by start (newest first; JavaScript stable sort with the reversed
comparator). -/
def tipValidSessions (sessions : List SleepSession) : List SleepSession :=
  (sessions.filter fun s => !s.deleted && s.endT.isSome).insertionSort
    fun a b => b.start < a.start

/-- Rule 1, short nap streak. -/
def shortNapTips (validSessions : List SleepSession) : List CoachTip :=
  let recentNaps := (validSessions.filter isNapSession).take SHORT_NAP_STREAK
  let shortNaps := recentNaps.filter fun s => sessionDur s < SHORT_NAP_THRESHOLD
  if 2 ≤ shortNaps.length ∧ 2 ≤ recentNaps.length then
    [{ id := "short-nap-streak", ttype := .warning,
       nums := [(shortNaps.length : ℚ), (recentNaps.length : ℚ)],
       relatedSessionIds := shortNaps.map fun s => s.id }]
  else []

/-- Rule 2, overtired / long wake window. -/
def overtiredTips (validSessions : List SleepSession) (baseline : AgeBaseline) :
    List CoachTip :=
  match validSessions with
  | lastSleep :: prevSleep :: _ =>
      let wakeWindow := lastSleep.start - prevSleep.endT.getD 0
      if baseline.wakeWindowMax * longWakeFactor < (wakeWindow : ℚ) then
        [{ id := "overtired", ttype := .warning,
           nums := [(wakeWindow : ℚ), baseline.wakeWindowMax],
           relatedSessionIds := [lastSleep.id, prevSleep.id] }]
      else []
  | _ => []

/-- Helper `getBedtimeSessions`: night sleep starting between 18:00 and
03:59 (source: `startHour >= 18 || startHour <= 3`). -/
def bedtimeSessionsOf (validSessions : List SleepSession) : List SleepSession :=
  validSessions.filter fun s =>
    !isNapSession s &&
      (decide (18 ≤ hourOf s.start) || decide (hourOf s.start ≤ 3))

/-- Rule 3, bedtime drift. -/
def bedtimeDriftTips (validSessions : List SleepSession) : List CoachTip :=
  let bedtimeSessions := (bedtimeSessionsOf validSessions).take 7
  if 3 ≤ bedtimeSessions.length then
    let bedtimeTimes : List ℤ := bedtimeSessions.map fun s => s.start % 1440
    let avgBedtime : ℚ := (bedtimeTimes.sum : ℚ) / (bedtimeTimes.length : ℚ)
    let latestBedtime : ℚ := (bedtimeTimes.headD 0 : ℚ)
    let drift := |latestBedtime - avgBedtime|
    if BEDTIME_VARIANCE_THRESHOLD < drift then
      [{ id := "bedtime-drift", ttype := .info, nums := [drift, avgBedtime],
         relatedSessionIds :=
           match bedtimeSessions.head? with
           | some b => [b.id]
           | none => [] }]
    else []
  else []

/-- Other sessions fully nested inside `session`, indicating a split
night. -/
def nestedSessions (validSessions : List SleepSession) (session : SleepSession) :
    List SleepSession :=
  validSessions.filter fun other =>
    other.id != session.id &&
      decide (session.start < other.start) &&
      decide (other.endT.getD 0 < session.endT.getD 0)

/-- Rule 4's scan over the most recent night sessions, stopping at the
first detection (the source's `break`). -/
def splitNightScan (validSessions : List SleepSession) :
    List SleepSession → List CoachTip
  | [] => []
  | session :: rest =>
      let sameNightSessions := nestedSessions validSessions session
      if sameNightSessions = [] then splitNightScan validSessions rest
      else
        [{ id := "split-night-" ++ session.id, ttype := .warning, nums := [],
           relatedSessionIds :=
             session.id :: sameNightSessions.map fun s => s.id }]

/-- Rule 4, split night detection over the most recent 3 night sessions. -/
def splitNightTips (validSessions : List SleepSession) : List CoachTip :=
  splitNightScan validSessions
    ((validSessions.filter fun s => !isNapSession s).take 3)

/-- Durations of the most recent 10 naps. -/
def napDurations10 (validSessions : List SleepSession) : List ℚ :=
  ((validSessions.filter isNapSession).take 10).map fun s =>
    ((sessionDur s : ℤ) : ℚ)

/-- Average of the most recent 10 nap durations. -/
def napAvg (validSessions : List SleepSession) : ℚ :=
  (napDurations10 validSessions).sum / ((napDurations10 validSessions).length : ℚ)

/-- Population variance of the most recent 10 nap durations. -/
def napVariance (validSessions : List SleepSession) : ℚ :=
  ((napDurations10 validSessions).map fun d => (d - napAvg validSessions) ^ 2).sum /
    ((napDurations10 validSessions).length : ℚ)

/-- Rule 5, inconsistency detection.  The source computes
`stdDev = Math.sqrt(variance)` and tests `stdDev > 30`; for the
nonnegative variance this is equivalent to `variance > 900`, which is the
form used here.  The payload is the exact average and variance (the
source displays `round(avg)` and `round(stdDev)`). -/
def inconsistencyTips (validSessions : List SleepSession)
    (learnerState : LearnerState) : List CoachTip :=
  if learnerState.confidence < HIGH_CONFIDENCE_THRESHOLD ∧
      MIN_SESSIONS_FOR_CONFIDENCE ≤ validSessions.length then
    if 5 ≤ (napDurations10 validSessions).length then
      if 900 < napVariance validSessions then
        [{ id := "inconsistent-schedule", ttype := .info,
           nums := [napAvg validSessions, napVariance validSessions],
           relatedSessionIds :=
             ((validSessions.filter isNapSession).take 5).map fun s => s.id }]
      else []
    else []
  else []

/-- Rule 6, high confidence success message. -/
def highConfidenceTips (validSessions : List SleepSession)
    (learnerState : LearnerState) : List CoachTip :=
  if HIGH_CONFIDENCE_THRESHOLD ≤ learnerState.confidence ∧
      MIN_SESSIONS_FOR_CONFIDENCE ≤ validSessions.length then
    [{ id := "high-confidence", ttype := .success,
       nums := [learnerState.confidence], relatedSessionIds := [] }]
  else []

/-- Rule 7, insufficient data. -/
def insufficientDataTips (validSessions : List SleepSession) : List CoachTip :=
  if validSessions.length < MIN_SESSIONS_FOR_CONFIDENCE then
    [{ id := "insufficient-data", ttype := .info,
       nums := [(MIN_SESSIONS_FOR_CONFIDENCE : ℚ) - (validSessions.length : ℚ)],
       relatedSessionIds := [] }]
  else []

/-- The age used by the tip engine: from the profile's birth date, with
the default 6 months when no profile is active. -/
def tipAgeMonths (activeProfile : Option BabyProfile) (today : YMD) : ℚ :=
  match activeProfile with
  | some p => ((calculateAgeInMonths p.birthDate today : ℤ) : ℚ)
  | none => 6

/-- `generateCoachTips`.  `today` is the ambient calendar date read by
`calculateAgeInMonths`. -/
def generateCoachTips (sessions : List SleepSession)
    (learnerState : LearnerState) (activeProfile : Option BabyProfile)
    (today : YMD) : List CoachTip :=
  let validSessions := tipValidSessions sessions
  if validSessions = [] then []
  else
    let baseline := getBaselineForAge (tipAgeMonths activeProfile today)
    shortNapTips validSessions ++ overtiredTips validSessions baseline ++
      bedtimeDriftTips validSessions ++ splitNightTips validSessions ++
      inconsistencyTips validSessions learnerState ++
      highConfidenceTips validSessions learnerState ++
      insufficientDataTips validSessions

/-! ### Schedule simulator (`schedule.ts`) -/

/-- Block kind of a `ScheduleBlock`. -/
inductive BlockKind
  | windDown
  | nap
  | bedtime
deriving DecidableEq, Repr

/-- The comparison word in a nap rationale string. -/
inductive Comparison
  | aligned
  | above
  | below
deriving DecidableEq, Repr

/-- Structured content of a rationale string: the fixed text plus every
interpolated value. -/
inductive Rationale
  | bedtimeWake (wakeWindowMin : ℚ)
  | napBaseline (cmp : Comparison) (typical : ℚ) (ageMonths : ℤ)
  | windDownBefore (minutes : ℤ) (kind : BlockKind)
deriving DecidableEq, Repr

/-- A schedule block (`ScheduleBlock`); `startT` / `endT` are minute
timestamps for `startISO` / `endISO`. -/
structure ScheduleBlock where
  id : String
  kind : BlockKind
  startT : ℤ
  endT : ℤ
  confidence : ℚ
  rationale : Rationale
deriving DecidableEq, Repr

/-- Result of one iteration of `generateSchedule`'s `while` loop: the
blocks pushed this iteration (wind-down first, then sleep, as pushed by
the source), the next identifier-supply index, and the advanced
simulation time. -/
structure IterResult where
  blocks : List ScheduleBlock
  nextK : ℕ
  nextSim : ℤ
deriving Repr

/-- One iteration of `generateSchedule`'s `while` loop body.  `k`
indexes the identifier supply, advancing once per `uuidv4()` call in
source order. -/
def scheduleIter (ids : ℕ → String) (ls : LearnerState)
    (baseline : AgeBaseline) (ageInMonths : ℤ)
    (current endOfTomorrow : ℤ) (k : ℕ) (simulationTime : ℤ) :
    IterResult :=
  let nextSleepStart := simulationTime + jsTrunc ls.ewmaWakeWindowMin
  let hour := hourOf nextSleepStart
  let isBedtime := (19 ≤ hour ∧ hour ≤ 22) ∨ (0 ≤ hour ∧ hour < 4)
  let kind : BlockKind := if isBedtime then .bedtime else .nap
  let sleepDuration : ℚ :=
    if isBedtime then 660
    else max baseline.napMin (min baseline.napMax ls.ewmaNapLengthMin)
  let confidenceAdjustment : ℚ := if isBedtime then -(1/10) else 0
  let blockConfidence :=
    max (1/10) (min 1 (ls.confidence + confidenceAdjustment))
  let rationale : Rationale :=
    if isBedtime then .bedtimeWake ls.ewmaWakeWindowMin
    else
      let learnedDiff := ls.ewmaWakeWindowMin - baseline.wakeWindowTypical
      let cmp : Comparison :=
        if |learnedDiff| < 15 then .aligned
        else if 0 < learnedDiff then .above
        else .below
      .napBaseline cmp baseline.wakeWindowTypical ageInMonths
  let windDownDuration : ℤ := if isBedtime then 20 else 15
  let windDownStart := nextSleepStart - windDownDuration
  let nextSleepEnd := nextSleepStart + jsTrunc sleepDuration
  let simulationTime2 := if isBedtime then nextSleepEnd - 15 else nextSleepEnd
  let k2 := if current < nextSleepStart ∧ windDownStart < endOfTomorrow
    then k + 1 else k
  let k3 := if current < nextSleepEnd ∧ nextSleepStart < endOfTomorrow
    then k2 + 1 else k2
  let sleepPart : List ScheduleBlock :=
    if current < nextSleepEnd ∧ nextSleepStart < endOfTomorrow then
      [{ id := ids k2, kind := kind, startT := nextSleepStart,
         endT := nextSleepEnd, confidence := blockConfidence,
         rationale := rationale }]
    else []
  let blocks :=
    if current < nextSleepStart ∧ windDownStart < endOfTomorrow then
      { id := ids k, kind := .windDown, startT := windDownStart,
        endT := nextSleepStart, confidence := blockConfidence,
        rationale := .windDownBefore windDownDuration kind } :: sleepPart
    else sleepPart
  { blocks := blocks, nextK := k3, nextSim := simulationTime2 }

/-- The `while` loop of `generateSchedule`.  `fuel` is the number of
remaining iterations (`maxBlocks - blockCount`, starting at 20). -/
def scheduleLoop (ids : ℕ → String) (ls : LearnerState)
    (baseline : AgeBaseline) (ageInMonths : ℤ)
    (current endOfTomorrow : ℤ) :
    ℕ → ℤ → ℕ → List ScheduleBlock
  | _, _, 0 => []
  | k, simulationTime, fuel + 1 =>
    if simulationTime < endOfTomorrow then
      (scheduleIter ids ls baseline ageInMonths current endOfTomorrow k
          simulationTime).blocks ++
        scheduleLoop ids ls baseline ageInMonths current endOfTomorrow
          (scheduleIter ids ls baseline ageInMonths current endOfTomorrow k
            simulationTime).nextK
          (scheduleIter ids ls baseline ageInMonths current endOfTomorrow k
            simulationTime).nextSim fuel
    else []

/-- `generateSchedule`.  `ids` is the `uuidv4()` supply, `today` the
ambient calendar date read by `calculateAgeInMonths`, and `current` the
resolved clock (`now || new Date()`). -/
def generateSchedule (ids : ℕ → String) (learnerState : LearnerState)
    (lastSession : Option SleepSession) (activeProfile : Option BabyProfile)
    (today : YMD) (current : ℤ) : List ScheduleBlock :=
  let ageInMonths : ℤ :=
    match activeProfile with
    | some p => calculateAgeInMonths p.birthDate today
    | none => 6
  let baseline := getBaselineForAge (ageInMonths : ℚ)
  let simulationTime : ℤ :=
    match lastSession with
    | none => current
    | some last =>
      match last.endT with
      | none =>
          let predictedWake := last.start + jsTrunc learnerState.ewmaNapLengthMin
          if predictedWake < current then current else predictedWake
      | some lastEnd => if lastEnd < current then current else lastEnd
  let endOfTomorrow := startOfDayM current + 2 * 1440
  scheduleLoop ids learnerState baseline ageInMonths current endOfTomorrow
    0 simulationTime 20

/-! ### Shared example inputs -/

/-- Example session 10:00 to 11:00 on day 0 (a 60-minute nap). -/
def exampleNap1 : SleepSession :=
  { id := "s1", start := 600, endT := some 660, deleted := false }

/-- Example session 13:00 to 14:00 on day 0, 120 minutes after
`exampleNap1` ends. -/
def exampleNap2 : SleepSession :=
  { id := "s2", start := 780, endT := some 840, deleted := false }

/-- An example calendar date for the ambient clock. -/
def exampleToday : YMD := { year := 2025, month := 1, day := 1 }

/-! ### C2: two-session cold-start EWMA example -/

/-- C2: starting from an explicit `null` previous state (cold start)
with exactly the sessions 10:00-11:00 and 13:00-14:00, the learner seeds
its estimates from the first observed nap and wake window, yielding
`ewmaNapLengthMin = 60` and `ewmaWakeWindowMin = 120`, for every age and
clock value. -/
theorem updateLearnerState_two_session_cold_start (ageMonths : ℚ) (now : ℤ) :
    (updateLearnerState (some none) [exampleNap1, exampleNap2] ageMonths
        now).ewmaNapLengthMin = 60 ∧
    (updateLearnerState (some none) [exampleNap1, exampleNap2] ageMonths
        now).ewmaWakeWindowMin = 120 := by
  norm_num [updateLearnerState, validSessionsOf, exampleNap1, exampleNap2,
    List.insertionSort, List.orderedInsert, List.filter, learnerWalk,
    learnerStep, sessionDur, ALPHA, jsRound]
  all_goals simp

/-! ### C10: null versus undefined previous state -/

/-- C10: an omitted (`undefined`) previous-state argument is replaced by
the built-in default state, so the call is not a cold start and behaves
exactly like passing `DEFAULT_LEARNER_STATE`; an explicit `null` triggers
cold-start seeding instead, and on the two-session example the two calls
return different states. -/
theorem updateLearnerState_undefined_vs_null :
    (∀ (sessions : List SleepSession) (ageMonths : ℚ) (now : ℤ),
        updateLearnerState none sessions ageMonths now =
          updateLearnerState (some (some DEFAULT_LEARNER_STATE)) sessions
            ageMonths now) ∧
    updateLearnerState (some none) [exampleNap1, exampleNap2] 6 0 ≠
      updateLearnerState none [exampleNap1, exampleNap2] 6 0 := by
  refine ⟨fun sessions ageMonths now => rfl, fun h => ?_⟩
  have h1 : (updateLearnerState (some none) [exampleNap1, exampleNap2] 6
      0).ewmaNapLengthMin = 60 := by
    norm_num [updateLearnerState, validSessionsOf, exampleNap1, exampleNap2,
      List.insertionSort, List.orderedInsert, List.filter, learnerWalk,
      learnerStep, sessionDur, ALPHA, jsRound]
    simp
  have h2 : (updateLearnerState none [exampleNap1, exampleNap2] 6
      0).ewmaNapLengthMin = 71 := by
    norm_num [updateLearnerState, validSessionsOf, exampleNap1, exampleNap2,
      List.insertionSort, List.orderedInsert, List.filter, learnerWalk,
      learnerStep, sessionDur, ALPHA, jsRound, getBaselineForAge,
      AGE_BASELINES, List.find?, lastBaseline, DEFAULT_LEARNER_STATE]
    simp
  rw [h] at h1
  rw [h1] at h2
  norm_num at h2

/-! ### C8: baseline bracket coverage -/

/-- C8 counterexample: the age 3.5 months is non-negative and does not
exceed the table maximum of 36 months, yet `getBaselineForAge` does not
return a bracket containing it — the integer brackets `[0,3]` and `[4,6]`
leave a gap at fractional ages, and the lookup falls through to the last
(19-36 months) bracket. -/
theorem getBaselineForAge_gap_counterexample :
    (0:ℚ) ≤ 7/2 ∧ (7/2:ℚ) ≤ 36 ∧
    getBaselineForAge (7/2) = lastBaseline ∧
    ¬((getBaselineForAge (7/2)).minAgeMonths ≤ 7/2 ∧
      (7/2:ℚ) ≤ (getBaselineForAge (7/2)).maxAgeMonths) := by
  have d1 : decide ((0:ℚ) ≤ 7/2) = true := decide_eq_true (by norm_num)
  have d2 : decide ((7:ℚ)/2 ≤ 3) = false := decide_eq_false (by norm_num)
  have d3 : decide ((4:ℚ) ≤ 7/2) = false := decide_eq_false (by norm_num)
  have d4 : decide ((7:ℚ) ≤ 7/2) = false := decide_eq_false (by norm_num)
  have d5 : decide ((13:ℚ) ≤ 7/2) = false := decide_eq_false (by norm_num)
  have d6 : decide ((19:ℚ) ≤ 7/2) = false := decide_eq_false (by norm_num)
  have hlook : getBaselineForAge (7/2) = lastBaseline := by
    simp [getBaselineForAge, AGE_BASELINES, List.find?, d1, d2, d3, d4, d5, d6]
  refine ⟨by norm_num, by norm_num, hlook, ?_⟩
  rw [hlook]
  norm_num [lastBaseline, AGE_BASELINES, List.getLast]

/-- C8 amended: restricted to whole-month ages the brackets do cover
every age up to the table maximum of 36; every age beyond 36 months falls
back to the last (oldest) bracket; and the lookup always returns some
bracket of the table (it never fails) — fractional ages inside the gaps
between consecutive integer brackets also take the last-bracket
fallback. -/
theorem getBaselineForAge_coverage :
    (∀ n : ℕ, n ≤ 36 →
      (getBaselineForAge n).minAgeMonths ≤ (n:ℚ) ∧
        (n:ℚ) ≤ (getBaselineForAge n).maxAgeMonths) ∧
    (∀ q : ℚ, 36 < q → getBaselineForAge q = lastBaseline) ∧
    (∀ q : ℚ, getBaselineForAge q ∈ AGE_BASELINES) := by
  refine ⟨by decide, ?_, ?_⟩
  · intro q hq
    have hnone : (AGE_BASELINES.find? fun b =>
        decide (b.minAgeMonths ≤ q) && decide (q ≤ b.maxAgeMonths)) = none := by
      rw [List.find?_eq_none]
      intro b hb
      fin_cases hb <;>
        simp only [Bool.and_eq_true, decide_eq_true_eq, not_and] <;>
        intro h1 h2 <;> linarith
    simp [getBaselineForAge, hnone]
  · intro q
    unfold getBaselineForAge
    rcases hfind : AGE_BASELINES.find? fun b =>
        decide (b.minAgeMonths ≤ q) && decide (q ≤ b.maxAgeMonths) with _ | b
    · rw [hfind]
      exact List.getLast_mem (by decide)
    · rw [hfind]
      exact List.mem_of_find?_eq_some hfind

/-- C8 witness: the amended coverage theorem applied at the whole-month
age 5, the out-of-range age 40, and the gap age 3.5. -/
theorem getBaselineForAge_coverage_witness :
    ((getBaselineForAge 5).minAgeMonths ≤ (5:ℚ) ∧
      (5:ℚ) ≤ (getBaselineForAge 5).maxAgeMonths) ∧
    getBaselineForAge 40 = lastBaseline ∧
    getBaselineForAge (7/2) ∈ AGE_BASELINES := by
  refine ⟨?_, getBaselineForAge_coverage.2.1 40 (by norm_num),
    getBaselineForAge_coverage.2.2 (7/2)⟩
  have h := getBaselineForAge_coverage.1 5 (by norm_num)
  simpa using h

/-! ### C9: behaviour on an empty usable-session set -/

/-- C9: when no usable (non-deleted, ended) session exists, the learner
returns the previous state unchanged in every field (the seed default
state — nap estimate 60, wake-window estimate 90 — when the previous
state is `null` or omitted), and the tip engine returns the empty list. -/
theorem empty_sessions_behaviour (arg : Option (Option LearnerState))
    (sessions : List SleepSession) (ageMonths : ℚ) (now : ℤ)
    (ls : LearnerState) (profile : Option BabyProfile) (today : YMD)
    (h : sessions.filter (fun s => !s.deleted && s.endT.isSome) = []) :
    updateLearnerState arg sessions ageMonths now =
      (match arg with
       | none => DEFAULT_LEARNER_STATE
       | some x => x.getD DEFAULT_LEARNER_STATE) ∧
    DEFAULT_LEARNER_STATE.ewmaNapLengthMin = 60 ∧
    DEFAULT_LEARNER_STATE.ewmaWakeWindowMin = 90 ∧
    generateCoachTips sessions ls profile today = [] := by
  have hv : validSessionsOf sessions = [] := by
    rw [validSessionsOf, h]
    rfl
  have ht : tipValidSessions sessions = [] := by
    rw [tipValidSessions, h]
    rfl
  refine ⟨?_, rfl, rfl, by simp [generateCoachTips, ht]⟩
  rcases arg with _ | x
  · simp [updateLearnerState, hv]
  · rcases x with _ | st <;> simp [updateLearnerState, hv]

/-- C9 witness: the empty-session theorem applied to the empty session
list with a `null` previous state. -/
theorem empty_sessions_behaviour_witness :
    updateLearnerState (some none) [] 6 0 = DEFAULT_LEARNER_STATE ∧
    DEFAULT_LEARNER_STATE.ewmaNapLengthMin = 60 ∧
    DEFAULT_LEARNER_STATE.ewmaWakeWindowMin = 90 ∧
    generateCoachTips [] DEFAULT_LEARNER_STATE none exampleToday = [] := by
  have h := empty_sessions_behaviour (some none) [] 6 0
    DEFAULT_LEARNER_STATE none exampleToday rfl
  exact ⟨h.1, h.2.1, h.2.2.1, h.2.2.2⟩

/-! ### C4: block-count bound of the simulator -/

/-- A learner state driving many short sleep cycles (30-minute wake
windows, 45-minute naps). -/
def shortCycleState : LearnerState :=
  { version := 1, ewmaNapLengthMin := 45, ewmaWakeWindowMin := 30,
    lastUpdatedISO := 0, confidence := 1/2 }

/-- C4 counterexample: the cap of 20 bounds loop iterations, not emitted
blocks; with 30-minute wake windows and 45-minute naps from midnight the
simulator returns more than 20 blocks (each iteration can push both a
wind-down and a sleep block). -/
theorem generateSchedule_more_than_twenty_blocks :
    20 < (generateSchedule (fun _ => "u") shortCycleState none none
      exampleToday 0).length := by
  decide

/-- Each loop iteration pushes at most two blocks: at most one wind-down
and at most one sleep block. -/
theorem scheduleIter_blocks_length_le (ids : ℕ → String) (ls : LearnerState)
    (baseline : AgeBaseline) (ageInMonths : ℤ) (current endOfTomorrow : ℤ)
    (k : ℕ) (sim : ℤ) :
    (scheduleIter ids ls baseline ageInMonths current endOfTomorrow k
      sim).blocks.length ≤ 2 := by
  unfold scheduleIter
  dsimp only
  split_ifs <;> simp

/-- The loop with `fuel` remaining iterations emits at most `2 * fuel`
blocks. -/
theorem scheduleLoop_length_le (ids : ℕ → String) (ls : LearnerState)
    (baseline : AgeBaseline) (ageInMonths : ℤ) (current endOfTomorrow : ℤ) :
    ∀ (fuel : ℕ) (k : ℕ) (sim : ℤ),
      (scheduleLoop ids ls baseline ageInMonths current endOfTomorrow k sim
        fuel).length ≤ 2 * fuel := by
  intro fuel
  induction fuel with
  | zero => intro k sim; simp [scheduleLoop]
  | succ n ih =>
      intro k sim
      rw [scheduleLoop]
      split
      · rw [List.length_append]
        have h1 := scheduleIter_blocks_length_le ids ls baseline ageInMonths
          current endOfTomorrow k sim
        have h2 := ih (scheduleIter ids ls baseline ageInMonths current
          endOfTomorrow k sim).nextK
          (scheduleIter ids ls baseline ageInMonths current endOfTomorrow k
            sim).nextSim
        omega
      · simp

/-- C4 amended: the loop stops when the horizon is reached or after at
most 20 iterations, and each iteration emits at most one wind-down and
one sleep block, so a generated schedule never contains more than 40
blocks. -/
theorem generateSchedule_length_le_forty (ids : ℕ → String)
    (learnerState : LearnerState) (lastSession : Option SleepSession)
    (activeProfile : Option BabyProfile) (today : YMD) (current : ℤ) :
    (generateSchedule ids learnerState lastSession activeProfile today
      current).length ≤ 40 := by
  refine le_trans (scheduleLoop_length_le _ _ _ _ _ _ 20 0 _) (by norm_num)

/-! ### C1: determinism of the simulator and tip engine -/

/-- Every field of a schedule block except the freshly generated
identifier. -/
def blockData (b : ScheduleBlock) :
    BlockKind × ℤ × ℤ × ℚ × Rationale :=
  (b.kind, b.startT, b.endT, b.confidence, b.rationale)

/-- A learner state whose long wake window produces a short two-block
schedule. -/
def divergingIdState : LearnerState :=
  { version := 1, ewmaNapLengthMin := 60, ewmaWakeWindowMin := 1500,
    lastUpdatedISO := 0, confidence := 1/2 }

/-- C1 counterexample: `uuidv4()` draws a fresh random identifier on
every call, so two runs on identical inputs (modelled by two different
identifier supplies, as two successive calls of a random generator
produce different values) return schedules that differ in the block
identifier fields. -/
theorem generateSchedule_ids_affect_output :
    generateSchedule (fun _ => "id-a") divergingIdState none none
        exampleToday 600 ≠
      generateSchedule (fun _ => "id-b") divergingIdState none none
        exampleToday 600 := by
  decide

/-- One loop iteration is deterministic apart from the identifiers it
draws: its blocks erased of identifiers and its advanced simulation time
do not depend on the identifier supply or supply index. -/
theorem scheduleIter_id_independent (ids1 ids2 : ℕ → String)
    (ls : LearnerState) (baseline : AgeBaseline) (ageInMonths : ℤ)
    (current endOfTomorrow : ℤ) (k1 k2 : ℕ) (sim : ℤ) :
    (scheduleIter ids1 ls baseline ageInMonths current endOfTomorrow k1
        sim).blocks.map blockData =
      (scheduleIter ids2 ls baseline ageInMonths current endOfTomorrow k2
        sim).blocks.map blockData ∧
    (scheduleIter ids1 ls baseline ageInMonths current endOfTomorrow k1
        sim).nextSim =
      (scheduleIter ids2 ls baseline ageInMonths current endOfTomorrow k2
        sim).nextSim := by
  unfold scheduleIter
  dsimp only
  constructor
  · split_ifs <;> simp [blockData]
  · rfl

/-- The whole loop is deterministic apart from the identifiers it
draws. -/
theorem scheduleLoop_id_independent (ids1 ids2 : ℕ → String)
    (ls : LearnerState) (baseline : AgeBaseline) (ageInMonths : ℤ)
    (current endOfTomorrow : ℤ) :
    ∀ (fuel : ℕ) (k1 k2 : ℕ) (sim : ℤ),
      (scheduleLoop ids1 ls baseline ageInMonths current endOfTomorrow k1 sim
          fuel).map blockData =
        (scheduleLoop ids2 ls baseline ageInMonths current endOfTomorrow k2 sim
          fuel).map blockData := by
  intro fuel
  induction fuel with
  | zero => intro k1 k2 sim; simp [scheduleLoop]
  | succ n ih =>
      intro k1 k2 sim
      rw [scheduleLoop, scheduleLoop]
      by_cases h : sim < endOfTomorrow
      · rw [if_pos h, if_pos h, List.map_append, List.map_append]
        have hiter := scheduleIter_id_independent ids1 ids2 ls baseline
          ageInMonths current endOfTomorrow k1 k2 sim
        rw [hiter.1, hiter.2]
        congr 1
        exact ih _ _ _
      · rw [if_neg h, if_neg h]

/-- C1 amended: for fixed inputs the simulator is deterministic in every
field except the freshly drawn block identifiers (any two identifier
supplies give schedules equal after erasing the `id` field), and the tip
engine is a pure function of its inputs. -/
theorem pipeline_deterministic_up_to_ids (ids1 ids2 : ℕ → String)
    (learnerState : LearnerState) (lastSession : Option SleepSession)
    (activeProfile : Option BabyProfile) (today : YMD) (current : ℤ)
    (sessions : List SleepSession) :
    (generateSchedule ids1 learnerState lastSession activeProfile today
        current).map blockData =
      (generateSchedule ids2 learnerState lastSession activeProfile today
        current).map blockData ∧
    generateCoachTips sessions learnerState activeProfile today =
      generateCoachTips sessions learnerState activeProfile today := by
  exact ⟨scheduleLoop_id_independent ids1 ids2 _ _ _ _ _ 20 0 0 _, rfl⟩

/-! ### Tip engine rule lemmas (shared by C6 and C7) -/

/-- Rule 1 only emits the fixed id `short-nap-streak`. -/
theorem mem_shortNapTips_id {v : List SleepSession} {t : CoachTip}
    (h : t ∈ shortNapTips v) : t.id = "short-nap-streak" := by
  simp only [shortNapTips] at h
  split_ifs at h <;> simp_all

/-- Rule 2 only emits the fixed id `overtired`. -/
theorem mem_overtiredTips_id {v : List SleepSession} {b : AgeBaseline}
    {t : CoachTip} (h : t ∈ overtiredTips v b) : t.id = "overtired" := by
  rcases v with _ | ⟨a, v2⟩
  · simp [overtiredTips] at h
  · rcases v2 with _ | ⟨c, rest⟩
    · simp [overtiredTips] at h
    · simp only [overtiredTips] at h
      split_ifs at h <;> simp_all

/-- Rule 3 only emits the fixed id `bedtime-drift`. -/
theorem mem_bedtimeDriftTips_id {v : List SleepSession} {t : CoachTip}
    (h : t ∈ bedtimeDriftTips v) : t.id = "bedtime-drift" := by
  simp only [bedtimeDriftTips] at h
  split_ifs at h <;> simp_all

/-- Rule 4's scan only emits ids of the form `split-night-` followed by a
session id. -/
theorem mem_splitNightScan_id {v : List SleepSession} {t : CoachTip} :
    ∀ {l : List SleepSession}, t ∈ splitNightScan v l →
      ∃ x, t.id = "split-night-" ++ x := by
  intro l
  induction l with
  | nil => intro h; simp [splitNightScan] at h
  | cons s rest ih =>
      intro h
      simp only [splitNightScan] at h
      split_ifs at h
      · exact ih h
      · simp at h
        exact ⟨s.id, by rw [h]⟩

/-- Rule 5 only emits the fixed id `inconsistent-schedule`, and any tip
it emits records the guards and the exact payload. -/
theorem mem_inconsistencyTips {v : List SleepSession} {ls : LearnerState}
    {t : CoachTip} (h : t ∈ inconsistencyTips v ls) :
    (ls.confidence < HIGH_CONFIDENCE_THRESHOLD ∧
      MIN_SESSIONS_FOR_CONFIDENCE ≤ v.length) ∧
    5 ≤ (napDurations10 v).length ∧
    900 < napVariance v ∧
    t = { id := "inconsistent-schedule", ttype := .info,
          nums := [napAvg v, napVariance v],
          relatedSessionIds :=
            ((v.filter isNapSession).take 5).map fun s => s.id } := by
  simp only [inconsistencyTips] at h
  split_ifs at h with h1 h2 h3
  · simp at h
    refine ⟨h1, h2, h3, ?_⟩
    simpa using h
  all_goals simp at h

/-- Rule 5 emits its tip whenever all its guards hold. -/
theorem inconsistencyTips_of_guards {v : List SleepSession}
    {ls : LearnerState}
    (h1 : ls.confidence < HIGH_CONFIDENCE_THRESHOLD ∧
      MIN_SESSIONS_FOR_CONFIDENCE ≤ v.length)
    (h2 : 5 ≤ (napDurations10 v).length) (h3 : 900 < napVariance v) :
    inconsistencyTips v ls =
      [{ id := "inconsistent-schedule", ttype := .info,
         nums := [napAvg v, napVariance v],
         relatedSessionIds :=
           ((v.filter isNapSession).take 5).map fun s => s.id }] := by
  simp only [inconsistencyTips]
  rw [if_pos h1, if_pos h2, if_pos h3]

/-- Rule 6 only fires with its guard: high confidence and at least the
minimum number of usable sessions. -/
theorem mem_highConfidenceTips {v : List SleepSession} {ls : LearnerState}
    {t : CoachTip} (h : t ∈ highConfidenceTips v ls) :
    (HIGH_CONFIDENCE_THRESHOLD ≤ ls.confidence ∧
      MIN_SESSIONS_FOR_CONFIDENCE ≤ v.length) ∧ t.id = "high-confidence" := by
  simp only [highConfidenceTips] at h
  split_ifs at h with hg
  · simp at h
    exact ⟨hg, by rw [h]⟩
  · simp at h

/-- Rule 7 only fires with its guard: fewer than the minimum number of
usable sessions. -/
theorem mem_insufficientDataTips {v : List SleepSession} {t : CoachTip}
    (h : t ∈ insufficientDataTips v) :
    v.length < MIN_SESSIONS_FOR_CONFIDENCE ∧ t.id = "insufficient-data" := by
  simp only [insufficientDataTips] at h
  split_ifs at h with hg
  · simp at h
    exact ⟨hg, by rw [h]⟩
  · simp at h

/-- Any tip returned by `generateCoachTips` comes from one of the seven
rules, evaluated on the filtered, newest-first session set. -/
theorem mem_generateCoachTips_cases {sessions : List SleepSession}
    {ls : LearnerState} {profile : Option BabyProfile} {today : YMD}
    {t : CoachTip} (h : t ∈ generateCoachTips sessions ls profile today) :
    t ∈ shortNapTips (tipValidSessions sessions) ∨
    t ∈ overtiredTips (tipValidSessions sessions)
        (getBaselineForAge (tipAgeMonths profile today)) ∨
    t ∈ bedtimeDriftTips (tipValidSessions sessions) ∨
    t ∈ splitNightTips (tipValidSessions sessions) ∨
    t ∈ inconsistencyTips (tipValidSessions sessions) ls ∨
    t ∈ highConfidenceTips (tipValidSessions sessions) ls ∨
    t ∈ insufficientDataTips (tipValidSessions sessions) := by
  simp only [generateCoachTips] at h
  split_ifs at h with hv
  · simp at h
  · simpa only [List.mem_append, or_assoc] using h

/-- Conversely, a rule 5 tip is returned whenever the usable set is
nonempty. -/
theorem generateCoachTips_of_inconsistency {sessions : List SleepSession}
    {ls : LearnerState} {profile : Option BabyProfile} {today : YMD}
    {t : CoachTip} (hv : ¬tipValidSessions sessions = [])
    (h : t ∈ inconsistencyTips (tipValidSessions sessions) ls) :
    t ∈ generateCoachTips sessions ls profile today := by
  simp only [generateCoachTips]
  rw [if_neg hv]
  simp only [List.mem_append]
  tauto

/-- A `split-night-` prefixed id never equals a target string whose
first twelve characters differ from the prefix. -/
theorem splitNight_id_ne (x target : String)
    (h : target.data.take 12 ≠ "split-night-".data) :
    "split-night-" ++ x ≠ target := by
  intro he
  apply h
  rw [← he, String.data_append]
  exact List.take_left "split-night-".data x.data

/-- Dispatch: a returned tip bearing one of the three confidence-related
ids can only come from the corresponding rule. -/
theorem tip_with_id_mem_rule {sessions : List SleepSession}
    {ls : LearnerState} {profile : Option BabyProfile} {today : YMD}
    {t : CoachTip} (ht : t ∈ generateCoachTips sessions ls profile today) :
    (t.id = "inconsistent-schedule" →
      t ∈ inconsistencyTips (tipValidSessions sessions) ls) ∧
    (t.id = "high-confidence" →
      t ∈ highConfidenceTips (tipValidSessions sessions) ls) ∧
    (t.id = "insufficient-data" →
      t ∈ insufficientDataTips (tipValidSessions sessions)) := by
  rcases mem_generateCoachTips_cases ht with h1 | h1 | h1 | h1 | h1 | h1 | h1
  · refine ⟨fun hid => ?_, fun hid => ?_, fun hid => ?_⟩ <;>
      exact absurd ((mem_shortNapTips_id h1).symm.trans hid) (by decide)
  · refine ⟨fun hid => ?_, fun hid => ?_, fun hid => ?_⟩ <;>
      exact absurd ((mem_overtiredTips_id h1).symm.trans hid) (by decide)
  · refine ⟨fun hid => ?_, fun hid => ?_, fun hid => ?_⟩ <;>
      exact absurd ((mem_bedtimeDriftTips_id h1).symm.trans hid) (by decide)
  · obtain ⟨x, hx⟩ := mem_splitNightScan_id h1
    refine ⟨fun hid => ?_, fun hid => ?_, fun hid => ?_⟩ <;>
      exact absurd (hx.symm.trans hid) (splitNight_id_ne x _ (by decide))
  · have hidt : t.id = "inconsistent-schedule" := by
      rw [(mem_inconsistencyTips h1).2.2.2]
    exact ⟨fun _ => h1,
      fun hid => absurd (hidt.symm.trans hid) (by decide),
      fun hid => absurd (hidt.symm.trans hid) (by decide)⟩
  · have hidt : t.id = "high-confidence" := (mem_highConfidenceTips h1).2
    exact ⟨fun hid => absurd (hidt.symm.trans hid) (by decide),
      fun _ => h1,
      fun hid => absurd (hidt.symm.trans hid) (by decide)⟩
  · have hidt : t.id = "insufficient-data" := (mem_insufficientDataTips h1).2
    exact ⟨fun hid => absurd (hidt.symm.trans hid) (by decide),
      fun hid => absurd (hidt.symm.trans hid) (by decide),
      fun _ => h1⟩

/-! ### C6: mutual exclusion of rules 6 and 7 -/

/-- C6: the high-confidence success tip and the insufficient-data tip
never appear in the same call: the former requires at least 5 usable
sessions, the latter fewer than 5. -/
theorem high_confidence_excludes_insufficient_data
    (sessions : List SleepSession) (ls : LearnerState)
    (profile : Option BabyProfile) (today : YMD)
    (h : "high-confidence" ∈
      (generateCoachTips sessions ls profile today).map CoachTip.id) :
    "insufficient-data" ∉
      (generateCoachTips sessions ls profile today).map CoachTip.id := by
  intro hins
  obtain ⟨t1, ht1, hid1⟩ := List.mem_map.mp h
  obtain ⟨t2, ht2, hid2⟩ := List.mem_map.mp hins
  have hg1 := mem_highConfidenceTips ((tip_with_id_mem_rule ht1).2.1 hid1)
  have hg2 := mem_insufficientDataTips ((tip_with_id_mem_rule ht2).2.2 hid2)
  have := hg1.1.2
  have := hg2.1
  omega

/-- Sessions giving five usable naps. -/
def fiveNapSessions : List SleepSession :=
  [{ id := "a", start := 0, endT := some 10, deleted := false },
   { id := "b", start := 100, endT := some 200, deleted := false },
   { id := "c", start := 300, endT := some 310, deleted := false },
   { id := "d", start := 400, endT := some 500, deleted := false },
   { id := "f", start := 1000, endT := some 1060, deleted := false }]

/-- A learner state above the high-confidence threshold. -/
def highConfidenceState : LearnerState :=
  { version := 1, ewmaNapLengthMin := 60, ewmaWakeWindowMin := 90,
    lastUpdatedISO := 0, confidence := 4/5 }

/-- C6 witness: on five usable sessions with confidence 0.8 the
high-confidence tip is present, and by the exclusion theorem the
insufficient-data tip is absent. -/
theorem high_confidence_excludes_insufficient_data_witness :
    "high-confidence" ∈
      (generateCoachTips fiveNapSessions highConfidenceState none
        exampleToday).map CoachTip.id ∧
    "insufficient-data" ∉
      (generateCoachTips fiveNapSessions highConfidenceState none
        exampleToday).map CoachTip.id := by
  have hm : "high-confidence" ∈
      (generateCoachTips fiveNapSessions highConfidenceState none
        exampleToday).map CoachTip.id := by
    norm_num [generateCoachTips, tipValidSessions, fiveNapSessions,
      highConfidenceState, List.insertionSort, List.orderedInsert,
      List.filter, shortNapTips, overtiredTips, bedtimeDriftTips,
      bedtimeSessionsOf, splitNightTips, splitNightScan, nestedSessions,
      inconsistencyTips, highConfidenceTips, insufficientDataTips,
      isNapSession, sessionDur, hourOf, tipAgeMonths, getBaselineForAge,
      AGE_BASELINES, List.find?, SHORT_NAP_STREAK, SHORT_NAP_THRESHOLD,
      MIN_SESSIONS_FOR_CONFIDENCE, HIGH_CONFIDENCE_THRESHOLD,
      longWakeFactor, napDurations10]
    exact ⟨{ id := "high-confidence", ttype := TipType.success,
             nums := [4/5], relatedSessionIds := [] },
           ⟨by simp, Or.inr rfl⟩, rfl⟩
  exact ⟨hm, high_confidence_excludes_insufficient_data _ _ _ _ hm⟩

/-! ### C7: the inconsistency tip -/

/-- C7 amended: the inconsistency tip is emitted exactly when confidence
is below the 0.75 threshold, at least 5 usable sessions exist, the
nap-duration sample (the most recent 10 naps) itself has at least 5
entries, and its spread exceeds 30 minutes standard deviation (variance
above 900); the emitted tip carries the exact computed average and
spread. -/
theorem inconsistency_tip_iff (sessions : List SleepSession)
    (ls : LearnerState) (profile : Option BabyProfile) (today : YMD) :
    ("inconsistent-schedule" ∈
        (generateCoachTips sessions ls profile today).map CoachTip.id ↔
      (ls.confidence < HIGH_CONFIDENCE_THRESHOLD ∧
        MIN_SESSIONS_FOR_CONFIDENCE ≤ (tipValidSessions sessions).length) ∧
      5 ≤ (napDurations10 (tipValidSessions sessions)).length ∧
      900 < napVariance (tipValidSessions sessions)) ∧
    (∀ t ∈ generateCoachTips sessions ls profile today,
      t.id = "inconsistent-schedule" →
        t.nums = [napAvg (tipValidSessions sessions),
                  napVariance (tipValidSessions sessions)]) := by
  constructor
  · constructor
    · intro hmem
      obtain ⟨t, ht, hid⟩ := List.mem_map.mp hmem
      have h1 := (tip_with_id_mem_rule ht).1 hid
      exact ⟨(mem_inconsistencyTips h1).1, (mem_inconsistencyTips h1).2.1,
        (mem_inconsistencyTips h1).2.2.1⟩
    · rintro ⟨hg1, hg2, hg3⟩
      have hv : ¬tipValidSessions sessions = [] := by
        intro h0
        rw [h0] at hg1
        exact absurd hg1.2 (by decide)
      apply List.mem_map.mpr
      refine ⟨{ id := "inconsistent-schedule", ttype := .info,
                nums := [napAvg (tipValidSessions sessions),
                         napVariance (tipValidSessions sessions)],
                relatedSessionIds :=
                  (((tipValidSessions sessions).filter isNapSession).take
                    5).map fun s => s.id },
             generateCoachTips_of_inconsistency hv ?_, rfl⟩
      rw [inconsistencyTips_of_guards hg1 hg2 hg3]
      exact List.mem_singleton.mpr rfl
  · intro t ht hid
    have h1 := (tip_with_id_mem_rule ht).1 hid
    rw [(mem_inconsistencyTips h1).2.2.2]

/-- Five usable sessions of which only four are naps; the four nap
durations (10, 100, 10, 100) spread far more than 30 minutes standard
deviation. -/
def fourNapSessions : List SleepSession :=
  [{ id := "a", start := 0, endT := some 10, deleted := false },
   { id := "b", start := 100, endT := some 200, deleted := false },
   { id := "c", start := 300, endT := some 310, deleted := false },
   { id := "d", start := 400, endT := some 500, deleted := false },
   { id := "e", start := 600, endT := some 900, deleted := false }]

/-- C7 counterexample: with confidence 0.5, five usable sessions, and a
nap-duration spread whose variance (2025) far exceeds 900 (standard
deviation 45 over 30 minutes), the tip is still NOT emitted, because only
4 of the usable sessions are naps and the code additionally requires at
least 5 nap durations — a condition the claim omits. -/
theorem inconsistency_tip_claim_counterexample :
    DEFAULT_LEARNER_STATE.confidence < HIGH_CONFIDENCE_THRESHOLD ∧
    MIN_SESSIONS_FOR_CONFIDENCE ≤ (tipValidSessions fourNapSessions).length ∧
    900 < napVariance (tipValidSessions fourNapSessions) ∧
    "inconsistent-schedule" ∉
      (generateCoachTips fourNapSessions DEFAULT_LEARNER_STATE none
        exampleToday).map CoachTip.id := by
  refine ⟨by norm_num [DEFAULT_LEARNER_STATE, HIGH_CONFIDENCE_THRESHOLD],
    by decide, ?_, ?_⟩
  · norm_num [napVariance, napAvg, napDurations10, tipValidSessions,
      fourNapSessions, List.insertionSort, List.orderedInsert, List.filter,
      isNapSession, sessionDur]
  · intro hmem
    obtain ⟨t, ht, hid⟩ := List.mem_map.mp hmem
    have h1 := (tip_with_id_mem_rule ht).1 hid
    have h5 := (mem_inconsistencyTips h1).2.1
    have hlen : (napDurations10 (tipValidSessions fourNapSessions)).length
        = 4 := by decide
    omega

/-- Five usable naps with durations (10, 170, 10, 170, 10): average 74,
variance 6144. -/
def spreadNapSessions : List SleepSession :=
  [{ id := "a", start := 0, endT := some 10, deleted := false },
   { id := "b", start := 100, endT := some 270, deleted := false },
   { id := "c", start := 400, endT := some 410, deleted := false },
   { id := "d", start := 500, endT := some 670, deleted := false },
   { id := "e", start := 800, endT := some 810, deleted := false }]

/-- C7 witness: the amended theorem applied to five high-variance naps
with confidence 0.5 — the tip is emitted and carries average 74 and
variance 6144. -/
theorem inconsistency_tip_iff_witness :
    "inconsistent-schedule" ∈
      (generateCoachTips spreadNapSessions DEFAULT_LEARNER_STATE none
        exampleToday).map CoachTip.id ∧
    napAvg (tipValidSessions spreadNapSessions) = 74 ∧
    napVariance (tipValidSessions spreadNapSessions) = 6144 := by
  have havg : napAvg (tipValidSessions spreadNapSessions) = 74 := by
    norm_num [napAvg, napDurations10, tipValidSessions, spreadNapSessions,
      List.insertionSort, List.orderedInsert, List.filter, isNapSession,
      sessionDur]
  have hvar : napVariance (tipValidSessions spreadNapSessions) = 6144 := by
    norm_num [napVariance, napAvg, napDurations10, tipValidSessions,
      spreadNapSessions, List.insertionSort, List.orderedInsert, List.filter,
      isNapSession, sessionDur]
  refine ⟨?_, havg, hvar⟩
  apply (inconsistency_tip_iff spreadNapSessions DEFAULT_LEARNER_STATE none
    exampleToday).1.mpr
  refine ⟨⟨by norm_num [DEFAULT_LEARNER_STATE, HIGH_CONFIDENCE_THRESHOLD],
    by decide⟩, by decide, ?_⟩
  rw [hvar]
  norm_num

/-! ### C3: the confidence formula -/

/-- The number of accepted data points (naps plus valid wake windows)
counted by the learner's walk, with `prev` the session preceding the
list head. -/
def acceptedCount : Option SleepSession → List SleepSession → ℕ
  | _, [] => 0
  | prev, s :: rest =>
      (if sessionDur s < 240 then 1 else 0) +
      (match prev with
       | none => 0
       | some p =>
           if 0 < s.start - p.endT.getD 0 ∧ s.start - p.endT.getD 0 < 720
           then 1 else 0) +
      acceptedCount (some s) rest

/-- The session preceding the position after walking `l` from `prev`. -/
def lastPrev (prev : Option SleepSession) : List SleepSession → Option SleepSession
  | [] => prev
  | s :: rest => lastPrev (some s) rest

/-- One learner step increments the data-point counter by the nap and
wake-window acceptances and nothing else. -/
theorem learnerStep_count (initial : Bool) (prev : Option SleepSession)
    (acc : WalkAcc) (s : SleepSession) :
    (learnerStep initial prev acc s).count =
      acc.count + ((if sessionDur s < 240 then 1 else 0) +
        (match prev with
         | none => 0
         | some p =>
             if 0 < s.start - p.endT.getD 0 ∧ s.start - p.endT.getD 0 < 720
             then 1 else 0)) := by
  unfold learnerStep
  rcases prev with _ | p <;> dsimp only <;> split_ifs <;> simp

/-- The learner's walk counts exactly the accepted data points. -/
theorem learnerWalk_count (initial : Bool) :
    ∀ (l : List SleepSession) (prev : Option SleepSession) (acc : WalkAcc),
      (learnerWalk initial prev acc l).count =
        acc.count + acceptedCount prev l := by
  intro l
  induction l with
  | nil => intro prev acc; simp [learnerWalk, acceptedCount]
  | cons s rest ih =>
      intro prev acc
      simp only [learnerWalk, acceptedCount]
      rw [ih, learnerStep_count]
      omega

/-- Inserting an element strictly above everything in the list commutes
with appending it last. -/
theorem orderedInsert_append_last {α : Type} (r : α → α → Prop)
    [DecidableRel r] (a x : α) (L : List α) (h : r a x) :
    List.orderedInsert r a (L ++ [x]) = List.orderedInsert r a L ++ [x] := by
  induction L with
  | nil => simp [List.orderedInsert, h]
  | cons b L ih =>
      simp only [List.cons_append, List.orderedInsert]
      split_ifs <;> simp [ih]

/-- Sorting a list with a strictly larger element appended keeps that
element last. -/
theorem insertionSort_append_last {α : Type} (r : α → α → Prop)
    [DecidableRel r] (x : α) :
    ∀ (l : List α), (∀ a ∈ l, r a x) →
      List.insertionSort r (l ++ [x]) = List.insertionSort r l ++ [x] := by
  intro l
  induction l with
  | nil => intro _; simp [List.insertionSort]
  | cons a l ih =>
      intro h
      simp only [List.cons_append, List.insertionSort, List.append_eq]
      rw [ih fun b hb => h b (List.mem_cons_of_mem a hb)]
      exact orderedInsert_append_last r a x _ (h a (List.mem_cons_self a l))

/-- Appending a usable session starting after every usable session of
the list appends it to the sorted valid set. -/
theorem validSessionsOf_append (sessions : List SleepSession)
    (new : SleepSession) (hdel : new.deleted = false)
    (hend : new.endT.isSome)
    (hlast : ∀ s ∈ sessions.filter (fun s => !s.deleted && s.endT.isSome),
      s.start < new.start) :
    validSessionsOf (sessions ++ [new]) = validSessionsOf sessions ++ [new] := by
  unfold validSessionsOf
  rw [List.filter_append]
  have hnew : List.filter (fun s => !s.deleted && s.endT.isSome) [new]
      = [new] := by
    simp [List.filter, hdel, hend]
  rw [hnew]
  exact insertionSort_append_last _ new _ hlast

/-- Appending a session adds a nonnegative number of accepted data
points. -/
theorem acceptedCount_append (x : SleepSession) :
    ∀ (l : List SleepSession) (prev : Option SleepSession),
      acceptedCount prev (l ++ [x]) =
        acceptedCount prev l + acceptedCount (lastPrev prev l) [x] := by
  intro l
  induction l with
  | nil => intro prev; simp [acceptedCount, lastPrev]
  | cons s rest ih =>
      intro prev
      simp only [List.cons_append, acceptedCount, lastPrev, List.append_eq]
      rw [ih (some s)]
      simp only [acceptedCount]
      omega

/-- The confidence computed by the learner on a nonempty usable set is
exactly the capped linear function of the accepted data-point count. -/
theorem updateLearnerState_confidence_eq (arg : Option (Option LearnerState))
    (sessions : List SleepSession) (ageMonths : ℚ) (now : ℤ)
    (h : ¬validSessionsOf sessions = []) :
    (updateLearnerState arg sessions ageMonths now).confidence =
      min (3/10 + (acceptedCount none (validSessionsOf sessions) : ℚ) *
        (5/100)) 1 := by
  simp only [updateLearnerState]
  rw [if_neg h]
  simp only [learnerWalk_count]
  norm_num

/-- The capped linear confidence formula is monotone in the count. -/
theorem confFormula_mono {c1 c2 : ℕ} (h : c1 ≤ c2) :
    min (3/10 + (c1 : ℚ) * (5/100)) 1 ≤ min (3/10 + (c2 : ℚ) * (5/100)) 1 := by
  apply min_le_min _ le_rfl
  have : (c1 : ℚ) ≤ (c2 : ℚ) := by exact_mod_cast h
  nlinarith

/-- C3: on every nonempty usable-session set the returned confidence is
`min(0.3 + 0.05 × count, 1)` with `count` the number of accepted naps
plus accepted wake windows; it never exceeds 1, never drops below 0.3,
equals exactly 1 as soon as 14 data points are accepted, and appending a
further usable session never decreases it. -/
theorem updateLearnerState_confidence_props (arg : Option (Option LearnerState))
    (sessions : List SleepSession) (ageMonths : ℚ) (now : ℤ)
    (h : ¬validSessionsOf sessions = []) :
    (updateLearnerState arg sessions ageMonths now).confidence =
      min (3/10 + (acceptedCount none (validSessionsOf sessions) : ℚ) *
        (5/100)) 1 ∧
    (updateLearnerState arg sessions ageMonths now).confidence ≤ 1 ∧
    3/10 ≤ (updateLearnerState arg sessions ageMonths now).confidence ∧
    (14 ≤ acceptedCount none (validSessionsOf sessions) →
      (updateLearnerState arg sessions ageMonths now).confidence = 1) ∧
    (∀ new : SleepSession, new.deleted = false → new.endT.isSome →
      (∀ s ∈ sessions.filter (fun s => !s.deleted && s.endT.isSome),
        s.start < new.start) →
      (updateLearnerState arg sessions ageMonths now).confidence ≤
        (updateLearnerState arg (sessions ++ [new]) ageMonths
          now).confidence) := by
  have heq := updateLearnerState_confidence_eq arg sessions ageMonths now h
  refine ⟨heq, ?_, ?_, ?_, ?_⟩
  · rw [heq]; exact min_le_right _ _
  · rw [heq]
    apply le_min _ (by norm_num)
    have : (0:ℚ) ≤ (acceptedCount none (validSessionsOf sessions) : ℚ) :=
      Nat.cast_nonneg _
    nlinarith
  · intro hc
    rw [heq]
    have : (14:ℚ) ≤ (acceptedCount none (validSessionsOf sessions) : ℚ) := by
      exact_mod_cast hc
    rw [min_eq_right (by nlinarith)]
  · intro new hdel hend hlast
    have happ := validSessionsOf_append sessions new hdel hend hlast
    have hne2 : ¬validSessionsOf (sessions ++ [new]) = [] := by
      rw [happ]
      simp
    have heq2 := updateLearnerState_confidence_eq arg (sessions ++ [new])
      ageMonths now hne2
    rw [heq, heq2, happ, acceptedCount_append]
    exact confFormula_mono (Nat.le_add_right _ _)

/-- C3 witness: the confidence theorem applied to one usable nap and the
two-session extension. -/
theorem updateLearnerState_confidence_props_witness :
    (updateLearnerState (some none) [exampleNap1] 6 0).confidence =
      min (3/10 + (acceptedCount none (validSessionsOf [exampleNap1]) : ℚ) *
        (5/100)) 1 ∧
    3/10 ≤ (updateLearnerState (some none) [exampleNap1] 6 0).confidence ∧
    (updateLearnerState (some none) [exampleNap1] 6 0).confidence ≤
      (updateLearnerState (some none) ([exampleNap1] ++ [exampleNap2]) 6
        0).confidence := by
  have h := updateLearnerState_confidence_props (some none) [exampleNap1] 6 0
    (by decide)
  exact ⟨h.1, h.2.2.1, h.2.2.2.2 exampleNap2 rfl rfl (by decide)⟩

/-! ### C5: schedule continuity invariants -/

/-- The lookup always returns a bracket of the table. -/
theorem getBaselineForAge_mem (q : ℚ) : getBaselineForAge q ∈ AGE_BASELINES := by
  unfold getBaselineForAge
  rcases hfind : AGE_BASELINES.find? fun b =>
      decide (b.minAgeMonths ≤ q) && decide (q ≤ b.maxAgeMonths) with _ | b
  · rw [hfind]
    exact List.getLast_mem (by decide)
  · rw [hfind]
    exact List.mem_of_find?_eq_some hfind

/-- Every bracket of the table prescribes naps of at least 30 minutes. -/
theorem baseline_napMin_ge (q : ℚ) : (30:ℚ) ≤ (getBaselineForAge q).napMin := by
  have hb := getBaselineForAge_mem q
  generalize hgen : getBaselineForAge q = b at hb ⊢
  fin_cases hb <;> norm_num

/-- Truncation of a nonnegative rational is nonnegative. -/
theorem jsTrunc_nonneg {q : ℚ} (h : 0 ≤ q) : 0 ≤ jsTrunc q := by
  unfold jsTrunc
  rw [if_neg (not_lt.mpr h)]
  exact Int.floor_nonneg.mpr h

/-- Truncation preserves a nonnegative integer lower bound. -/
theorem le_jsTrunc_of_le {z : ℤ} {q : ℚ} (hz : 0 ≤ z) (h : (z:ℚ) ≤ q) :
    z ≤ jsTrunc q := by
  unfold jsTrunc
  rw [if_neg (not_lt.mpr (le_trans (by exact_mod_cast hz) h))]
  exact Int.le_floor.mpr h

/-- Wind-down pairing: every wind-down block that is not the final block
is immediately followed by a sleep (non-wind-down) block starting exactly
at the wind-down's end. -/
def wdPaired : List ScheduleBlock → Prop
  | [] => True
  | [_] => True
  | a :: b :: rest =>
      (a.kind = .windDown → b.kind ≠ .windDown ∧ a.endT = b.startT) ∧
        wdPaired (b :: rest)

/-- A non-wind-down block can always be prepended to a paired list. -/
theorem wdPaired_cons {a : ScheduleBlock} {l : List ScheduleBlock}
    (ha : a.kind ≠ .windDown) (hl : wdPaired l) : wdPaired (a :: l) := by
  cases l with
  | nil => trivial
  | cons b rest => exact ⟨fun h => absurd h ha, hl⟩

/-- The claim's strict reading: every wind-down block is followed by a
sleep block whose start equals the wind-down's end. -/
def windDownPairedStrict (l : List ScheduleBlock) : Prop :=
  ∀ (i : ℕ) (h : i < l.length), (l.get ⟨i, h⟩).kind = .windDown →
    ∃ h2 : i + 1 < l.length, (l.get ⟨i + 1, h2⟩).kind ≠ .windDown ∧
      (l.get ⟨i, h⟩).endT = (l.get ⟨i + 1, h2⟩).startT

/-- Membership from `getLast?`. -/
theorem mem_of_getLastOpt {α : Type} {l : List α} {x : α}
    (h : x ∈ l.getLast?) : x ∈ l := by
  obtain ⟨hne, rfl⟩ := List.mem_getLast?_eq_getLast h
  exact List.getLast_mem hne

/-- Membership from `head?`. -/
theorem mem_of_headOpt {α : Type} {l : List α} {x : α}
    (h : x ∈ l.head?) : x ∈ l := by
  rw [List.eq_cons_of_mem_head? h]
  exact List.mem_cons_self _ _

/-- Invariants of one loop iteration, for a nonnegative wake-window
estimate and a bracket prescribing naps of at least 30 minutes: every
pushed block starts within the iteration's window, the blocks are
start-ordered, the simulation time advances, and the pushed blocks are a
(possibly empty) wind-down/sleep pair — with the sleep part missing only
when the simulation has reached the horizon. -/
theorem scheduleIter_invariants (ids : ℕ → String) (ls : LearnerState)
    (baseline : AgeBaseline) (age : ℤ) (current hor : ℤ) (k : ℕ)
    (sim : ℤ) (hw : 0 ≤ ls.ewmaWakeWindowMin)
    (hnap : (30:ℚ) ≤ baseline.napMin) :
    (∀ b ∈ (scheduleIter ids ls baseline age current hor k sim).blocks,
      sim + jsTrunc ls.ewmaWakeWindowMin - 20 ≤ b.startT) ∧
    (∀ b ∈ (scheduleIter ids ls baseline age current hor k sim).blocks,
      b.startT ≤ (scheduleIter ids ls baseline age current hor k sim).nextSim +
        jsTrunc ls.ewmaWakeWindowMin - 20) ∧
    sim ≤ (scheduleIter ids ls baseline age current hor k sim).nextSim ∧
    List.Chain' (fun a b => a.startT ≤ b.startT)
      (scheduleIter ids ls baseline age current hor k sim).blocks ∧
    ((scheduleIter ids ls baseline age current hor k sim).blocks = [] ∨
     (∃ sb, (scheduleIter ids ls baseline age current hor k sim).blocks = [sb] ∧
        sb.kind ≠ .windDown) ∨
     (∃ wb sb,
        (scheduleIter ids ls baseline age current hor k sim).blocks = [wb, sb] ∧
        wb.kind = .windDown ∧ sb.kind ≠ .windDown ∧ wb.endT = sb.startT) ∨
     (∃ wb, (scheduleIter ids ls baseline age current hor k sim).blocks = [wb] ∧
        wb.kind = .windDown ∧
        hor ≤ (scheduleIter ids ls baseline age current hor k sim).nextSim)) := by
  have hW : 0 ≤ jsTrunc ls.ewmaWakeWindowMin := jsTrunc_nonneg hw
  unfold scheduleIter
  dsimp only
  by_cases hbed : (19 ≤ hourOf (sim + jsTrunc ls.ewmaWakeWindowMin) ∧
      hourOf (sim + jsTrunc ls.ewmaWakeWindowMin) ≤ 22) ∨
      (0 ≤ hourOf (sim + jsTrunc ls.ewmaWakeWindowMin) ∧
        hourOf (sim + jsTrunc ls.ewmaWakeWindowMin) < 4)
  · simp only [if_pos hbed]
    have h660 : jsTrunc (660:ℚ) = 660 := by norm_num [jsTrunc]
    rw [h660]
    by_cases hwd : current < sim + jsTrunc ls.ewmaWakeWindowMin ∧
        sim + jsTrunc ls.ewmaWakeWindowMin - 20 < hor
    · by_cases hsl : current < sim + jsTrunc ls.ewmaWakeWindowMin + 660 ∧
          sim + jsTrunc ls.ewmaWakeWindowMin < hor
      · simp only [if_pos hwd, if_pos hsl]
        refine ⟨?_, ?_, by omega, ?_, ?_⟩
        · intro b hb
          simp only [List.mem_cons, List.mem_singleton,
            List.not_mem_nil, or_false] at hb
          rcases hb with rfl | rfl <;> dsimp <;> omega
        · intro b hb
          simp only [List.mem_cons, List.mem_singleton,
            List.not_mem_nil, or_false] at hb
          rcases hb with rfl | rfl <;> dsimp <;> omega
        · simp only [List.chain'_cons, List.chain'_singleton, and_true]
          omega
        · refine Or.inr (Or.inr (Or.inl ⟨_, _, rfl, rfl, ?_, rfl⟩))
          simp
      · simp only [if_pos hwd, if_neg hsl]
        have hshor : hor ≤ sim + jsTrunc ls.ewmaWakeWindowMin := by
          rcases hwd with ⟨hc, _⟩
          by_contra hcon
          push_neg at hcon
          exact hsl ⟨by omega, by omega⟩
        refine ⟨?_, ?_, by omega, by simp, ?_⟩
        · intro b hb
          simp only [List.mem_singleton, List.mem_cons,
            List.not_mem_nil, or_false] at hb
          subst hb
          dsimp
          omega
        · intro b hb
          simp only [List.mem_singleton, List.mem_cons,
            List.not_mem_nil, or_false] at hb
          subst hb
          dsimp
          omega
        · refine Or.inr (Or.inr (Or.inr ⟨_, rfl, rfl, by omega⟩))
    · by_cases hsl : current < sim + jsTrunc ls.ewmaWakeWindowMin + 660 ∧
          sim + jsTrunc ls.ewmaWakeWindowMin < hor
      · simp only [if_neg hwd, if_pos hsl]
        refine ⟨?_, ?_, by omega, by simp, ?_⟩
        · intro b hb
          simp only [List.mem_singleton, List.mem_cons,
            List.not_mem_nil, or_false] at hb
          subst hb
          dsimp
          omega
        · intro b hb
          simp only [List.mem_singleton, List.mem_cons,
            List.not_mem_nil, or_false] at hb
          subst hb
          dsimp
          omega
        · refine Or.inr (Or.inl ⟨_, rfl, ?_⟩)
          simp
      · simp only [if_neg hwd, if_neg hsl]
        exact ⟨by simp, by simp, by omega, by simp, by simp⟩
  · simp only [if_neg hbed]
    have hdq : (30:ℚ) ≤ max baseline.napMin
        (min baseline.napMax ls.ewmaNapLengthMin) :=
      le_trans hnap (le_max_left _ _)
    have hdt : (30:ℤ) ≤ jsTrunc (max baseline.napMin
        (min baseline.napMax ls.ewmaNapLengthMin)) :=
      le_jsTrunc_of_le (by norm_num) (by exact_mod_cast hdq)
    by_cases hwd : current < sim + jsTrunc ls.ewmaWakeWindowMin ∧
        sim + jsTrunc ls.ewmaWakeWindowMin - 15 < hor
    · by_cases hsl : current < sim + jsTrunc ls.ewmaWakeWindowMin +
          jsTrunc (max baseline.napMin
            (min baseline.napMax ls.ewmaNapLengthMin)) ∧
          sim + jsTrunc ls.ewmaWakeWindowMin < hor
      · simp only [if_pos hwd, if_pos hsl]
        refine ⟨?_, ?_, by omega, ?_, ?_⟩
        · intro b hb
          simp only [List.mem_cons, List.mem_singleton,
            List.not_mem_nil, or_false] at hb
          rcases hb with rfl | rfl <;> dsimp <;> omega
        · intro b hb
          simp only [List.mem_cons, List.mem_singleton,
            List.not_mem_nil, or_false] at hb
          rcases hb with rfl | rfl <;> dsimp <;> omega
        · simp only [List.chain'_cons, List.chain'_singleton, and_true]
          omega
        · refine Or.inr (Or.inr (Or.inl ⟨_, _, rfl, rfl, ?_, rfl⟩))
          simp
      · simp only [if_pos hwd, if_neg hsl]
        have hshor : hor ≤ sim + jsTrunc ls.ewmaWakeWindowMin := by
          rcases hwd with ⟨hc, _⟩
          by_contra hcon
          push_neg at hcon
          exact hsl ⟨by omega, by omega⟩
        refine ⟨?_, ?_, by omega, by simp, ?_⟩
        · intro b hb
          simp only [List.mem_singleton, List.mem_cons,
            List.not_mem_nil, or_false] at hb
          subst hb
          dsimp
          omega
        · intro b hb
          simp only [List.mem_singleton, List.mem_cons,
            List.not_mem_nil, or_false] at hb
          subst hb
          dsimp
          omega
        · refine Or.inr (Or.inr (Or.inr ⟨_, rfl, rfl, by omega⟩))
    · by_cases hsl : current < sim + jsTrunc ls.ewmaWakeWindowMin +
          jsTrunc (max baseline.napMin
            (min baseline.napMax ls.ewmaNapLengthMin)) ∧
          sim + jsTrunc ls.ewmaWakeWindowMin < hor
      · simp only [if_neg hwd, if_pos hsl]
        refine ⟨?_, ?_, by omega, by simp, ?_⟩
        · intro b hb
          simp only [List.mem_singleton, List.mem_cons,
            List.not_mem_nil, or_false] at hb
          subst hb
          dsimp
          omega
        · intro b hb
          simp only [List.mem_singleton, List.mem_cons,
            List.not_mem_nil, or_false] at hb
          subst hb
          dsimp
          omega
        · refine Or.inr (Or.inl ⟨_, rfl, ?_⟩)
          simp
      · simp only [if_neg hwd, if_neg hsl]
        exact ⟨by simp, by simp, by omega, by simp, by simp⟩

/-- Past the horizon the loop emits nothing. -/
theorem scheduleLoop_nil_of_horizon (ids : ℕ → String) (ls : LearnerState)
    (baseline : AgeBaseline) (age : ℤ) (current hor : ℤ) (k : ℕ) (sim : ℤ)
    (fuel : ℕ) (h : ¬sim < hor) :
    scheduleLoop ids ls baseline age current hor k sim fuel = [] := by
  cases fuel with
  | zero => rfl
  | succ n =>
      rw [scheduleLoop]
      exact if_neg h

/-- Loop-level invariants: every emitted block starts within the window
of the current simulation time, the blocks are emitted in non-decreasing
start order, and wind-down blocks are paired with their sleep blocks. -/
theorem scheduleLoop_invariants (ids : ℕ → String) (ls : LearnerState)
    (baseline : AgeBaseline) (age : ℤ) (current hor : ℤ)
    (hw : 0 ≤ ls.ewmaWakeWindowMin) (hnap : (30:ℚ) ≤ baseline.napMin) :
    ∀ (fuel : ℕ) (k : ℕ) (sim : ℤ),
      (∀ b ∈ scheduleLoop ids ls baseline age current hor k sim fuel,
        sim + jsTrunc ls.ewmaWakeWindowMin - 20 ≤ b.startT) ∧
      List.Chain' (fun a b => a.startT ≤ b.startT)
        (scheduleLoop ids ls baseline age current hor k sim fuel) ∧
      wdPaired (scheduleLoop ids ls baseline age current hor k sim fuel) := by
  intro fuel
  induction fuel with
  | zero =>
      intro k sim
      exact ⟨by simp [scheduleLoop], by simp [scheduleLoop], trivial⟩
  | succ n ih =>
      intro k sim
      by_cases hsim : sim < hor
      case neg =>
        rw [scheduleLoop, if_neg hsim]
        exact ⟨by simp, by simp, trivial⟩
      rw [scheduleLoop, if_pos hsim]
      obtain ⟨ha, hb2, he, hchain, hshape⟩ :=
        scheduleIter_invariants ids ls baseline age current hor k sim hw hnap
      obtain ⟨iha, ihchain, ihpaired⟩ :=
        ih (scheduleIter ids ls baseline age current hor k sim).nextK
          (scheduleIter ids ls baseline age current hor k sim).nextSim
      refine ⟨?_, ?_, ?_⟩
      · intro b hbmem
        rcases List.mem_append.mp hbmem with hmem | hmem
        · exact ha b hmem
        · have h1 := iha b hmem
          omega
      · rw [List.chain'_append]
        refine ⟨hchain, ihchain, ?_⟩
        intro x hx y hy
        have h1 := hb2 x (mem_of_getLastOpt hx)
        have h2 := iha y (mem_of_headOpt hy)
        omega
      · rcases hshape with hnil | ⟨sb, hsb, hk⟩ |
          ⟨wb, sb2, heq, hwk, hsk, hes⟩ | ⟨wb, heq, hwk, hge⟩
        · rw [hnil, List.nil_append]
          exact ihpaired
        · rw [hsb, List.singleton_append]
          exact wdPaired_cons hk ihpaired
        · rw [heq, List.cons_append, List.singleton_append]
          exact ⟨fun _ => ⟨hsk, hes⟩, wdPaired_cons hsk ihpaired⟩
        · rw [heq, List.singleton_append,
            scheduleLoop_nil_of_horizon ids ls baseline age current hor _ _ n
              (not_lt.mpr hge)]
          trivial

/-- C5 amended: for a nonnegative wake-window estimate every generated
schedule is in non-decreasing start-time order, and every wind-down block
other than a possible final one at the horizon is immediately followed by
the sleep block it precedes, whose start equals the wind-down's end. -/
theorem generateSchedule_continuity (ids : ℕ → String)
    (learnerState : LearnerState) (lastSession : Option SleepSession)
    (activeProfile : Option BabyProfile) (today : YMD) (current : ℤ)
    (hw : 0 ≤ learnerState.ewmaWakeWindowMin) :
    List.Chain' (fun a b => a.startT ≤ b.startT)
      (generateSchedule ids learnerState lastSession activeProfile today
        current) ∧
    wdPaired (generateSchedule ids learnerState lastSession activeProfile
      today current) := by
  unfold generateSchedule
  dsimp only
  exact ⟨(scheduleLoop_invariants _ _ _ _ _ _ hw (baseline_napMin_ge _)
      20 0 _).2.1,
    (scheduleLoop_invariants _ _ _ _ _ _ hw (baseline_napMin_ge _)
      20 0 _).2.2⟩

/-- A state whose short wake window places the next sleep start just
past the horizon while its wind-down still begins before it. -/
def trailingWindDownState : LearnerState :=
  { version := 1, ewmaNapLengthMin := 45, ewmaWakeWindowMin := 6,
    lastUpdatedISO := 0, confidence := 1/2 }

/-- A last session ending one minute before the horizon. -/
def trailingLastSession : SleepSession :=
  { id := "x", start := 2800, endT := some 2879, deleted := false }

/-- A pathological state with a negative wake-window estimate. -/
def negativeWakeState : LearnerState :=
  { version := 1, ewmaNapLengthMin := 45, ewmaWakeWindowMin := -120,
    lastUpdatedISO := 0, confidence := 1/2 }

/-- An open (still running) last session. -/
def openLastSession : SleepSession :=
  { id := "y", start := 2000, endT := none, deleted := false }

/-- C5 counterexample: (i) at the horizon the simulator can emit a
wind-down block with no sleep block after it — here the whole schedule is
a single wind-down block — so not every wind-down's end is the start of a
following sleep block; (ii) with a negative wake-window estimate the
blocks are not in non-decreasing start order (starts 1910, 1925, 1835,
...). -/
theorem generateSchedule_continuity_counterexample :
    ¬windDownPairedStrict (generateSchedule (fun _ => "u")
      trailingWindDownState (some trailingLastSession) none exampleToday 0) ∧
    ¬List.Chain' (fun a b => a.startT ≤ b.startT)
      (generateSchedule (fun _ => "u") negativeWakeState
        (some openLastSession) none exampleToday 0) := by
  constructor
  · intro hstrict
    rcases hstrict 0 (by decide) (by decide) with ⟨h2, -⟩
    exact absurd h2 (by decide)
  · intro hchain
    have h12 := (List.chain'_iff_get.mp hchain) 1 (by decide)
    revert h12
    decide

/-- C5 witness: the continuity theorem applied to a concrete state with
a 1500-minute wake window. -/
theorem generateSchedule_continuity_witness :
    List.Chain' (fun a b => a.startT ≤ b.startT)
      (generateSchedule (fun _ => "u") divergingIdState none none
        exampleToday 600) ∧
    wdPaired (generateSchedule (fun _ => "u") divergingIdState none none
      exampleToday 600) :=
  generateSchedule_continuity (fun _ => "u") divergingIdState none none
    exampleToday 600 (by norm_num [divergingIdState])

end Coddle
